import Mathlib

/-!
Shallow embedding of `src/api_ai/model_evaluation/ragas_eval.py`.

The script orchestrates a RAG evaluation: it configures external
dependencies, builds one retrieval chain per hyperparameter preset,
invokes it on each benchmark question, scores the output with the ragas
library, averages per-question scores per configuration and returns a
results table.

External calls (the hosted LLM, the retriever, `ragas.evaluate`, the
dependency constructors) are modelled by an oracle giving the outcome of
each per-question evaluation attempt and a flag saying whether dependency
configuration raises.  Missing values (`np.nan`) are modelled by `none`,
scores by `Option ℚ`.  The observable side effects the claims speak about
(splitting, index building, chain building, invocations, scoring calls,
sleeps, printing of averages) are recorded in an event trace.
-/

namespace RagasEval

/-- A metric score; `none` models `np.nan` (a missing value). -/
abbrev Score := Option ℚ

/-- `metric_names = [m.name for m in metrics]` for the configured metric list
`[faithfulness, answer_relevancy, context_precision, context_recall]`. -/
def metric_names : List String :=
  ["faithfulness", "answer_relevancy", "context_precision", "context_recall"]

/-- One named hyperparameter combination, as the dicts returned by
`get_manual_hyperparameter_configs`. -/
structure HyperConfig where
  name : String
  chunk_size : Nat
  top_k : Nat
  temperature : ℚ
deriving Repr, DecidableEq

/-- `get_manual_hyperparameter_configs`: the fixed list of 4 manually
defined hyperparameter combinations. -/
def get_manual_hyperparameter_configs : List HyperConfig :=
  [⟨"Creative & Balanced", 1000, 4, 3/10⟩,
   ⟨"Wide Context Sweep", 1200, 6, 1/10⟩,
   ⟨"Balanced Natural", 1000, 3, 2/10⟩,
   ⟨"Dense Precision", 1800, 2, 15/100⟩]

/-- A (question, ground_truth) row of the evaluation DataFrame. -/
structure QAPair where
  question : String
  ground_truth : String
deriving Repr, DecidableEq

/-- The `question` column of `create_evaluation_dataset`. -/
def evaluation_questions : List String :=
  ["¿Cuáles son las condiciones que deben darse para que la compañía aseguradora reembolse los gastos médicos?",
   "¿Cuáles son las coberturas que otorga la compañía aseguradora para prestaciones médicas de alto costo?",
   "¿Cuáles son las exclusiones del seguro de COVID-19?",
   "¿Cuándo debe ser denunciado el siniestro de enfermedades graves?"]

/-- The `ground_truth` column of `create_evaluation_dataset`. -/
def evaluation_ground_truths : List String :=
  ["Que haya transcurrido el periodo de carencia, que la póliza esté vigente y que no haya transcurrido el plazo para la cobertura del Evento.",
   "Beneficio de hospitalización (días cama, servicios, honorarios médicos), prótesis, cirugía dental por accidente, servicio de enfermera y ambulancia, y beneficio ambulatorio.",
   "Gastos de hospitalización, rehabilitación o fallecimiento asociados a enfermedades distintas al COVID-19.",
   "El asegurado debe notificar a la compañía tan pronto sea posible una vez tomado conocimiento del diagnóstico de la enfermedad grave cubierta."]

/-- `create_evaluation_dataset`: a DataFrame built from the two parallel
columns, row `i` pairing question `i` with ground truth `i`. -/
def create_evaluation_dataset : List QAPair :=
  (evaluation_questions.zip evaluation_ground_truths).map (fun p => ⟨p.1, p.2⟩)

/-- The constants imported from `generative_resp.config_model` and
`generative_resp.config_vectordb`.  Those modules are not in the snapshot;
the embedding treats their values as an opaque parameter shared by every
call site, exactly as module-level constants are in the source. -/
structure SharedConfig where
  GEMINI_MODEL : String
  GEMINI_API_KEY : String
  EMBEDDING_MODEL : String
  CHUNK_OVERLAP : Nat
  MAX_OUT_TOKENS : Nat
deriving Repr, DecidableEq

/-- The prompt template hard-coded in `create_rag_chain`. -/
def rag_prompt_template : String :=
  "Usa los siguientes fragmentos de contexto para responder la pregunta. Si no sabes la respuesta, simplemente di que no lo sabes. Responde en español.\n\nContexto: {context}\n\nPregunta: {question}\n\nRespuesta útil:"

/-- The configuration of the chain built by `create_rag_chain`: every
parameter the function passes to the external builders. -/
structure ChainSpec where
  splitter_chunk_size : Nat
  splitter_chunk_overlap : Nat
  embedding_model : String
  retriever_k : Nat
  llm_model : String
  llm_temperature : ℚ
  llm_max_output_tokens : Nat
  prompt_template : String
deriving Repr, DecidableEq

/-- `create_rag_chain(docs, temperature, top_k, chunk_size)`: the chain it
assembles, as the record of parameters handed to the external libraries. -/
def create_rag_chain (sc : SharedConfig) (temperature : ℚ) (top_k chunk_size : Nat) :
    ChainSpec :=
  { splitter_chunk_size := chunk_size
    splitter_chunk_overlap := sc.CHUNK_OVERLAP
    embedding_model := sc.EMBEDDING_MODEL
    retriever_k := top_k
    llm_model := sc.GEMINI_MODEL
    llm_temperature := temperature
    llm_max_output_tokens := sc.MAX_OUT_TOKENS
    prompt_template := rag_prompt_template }

/-- The ragas LLM wrapper built by `configure_ragas_dependencies`. -/
structure RagasLLM where
  model : String
  temperature : ℚ
  timeout : Nat
deriving Repr, DecidableEq

/-- The ragas embeddings wrapper built by `configure_ragas_dependencies`. -/
structure RagasEmbeddings where
  model_name : String
  normalize_embeddings : Bool
deriving Repr, DecidableEq

/-- `configure_ragas_dependencies`: builds the pair of wrappers; any
exception in the body (`raisesExn`) is caught and `(None, None)` returned. -/
def configure_ragas_dependencies (sc : SharedConfig) (raisesExn : Bool) :
    Option RagasLLM × Option RagasEmbeddings :=
  if raisesExn then (none, none)
  else (some ⟨sc.GEMINI_MODEL, 0, 300⟩, some ⟨sc.EMBEDDING_MODEL, true⟩)

/-- `RunConfig(max_workers=1)` as constructed in `run_evaluation`. -/
structure RunConfig where
  max_workers : Nat
deriving Repr, DecidableEq

/-- Outcome of one per-question evaluation attempt, decided by the external
world: an exception at one of the three calls inside the `try` block, a
result object without a `scores` attribute, a `scores` attribute of
unexpected shape, or a recognized scores dict. -/
inductive EvalOutcome where
  | invokeRaises
  | retrieveRaises
  | evaluateRaises
  | noScoresAttr
  | badShape
  | ok (scores : List (String × Score))
deriving Repr, DecidableEq

/-- `d.get(k, np.nan)` on a scores dict. -/
def dictGet (d : List (String × Score)) (k : String) : Score :=
  match d.find? (fun p => p.1 == k) with
  | some p => p.2
  | none => none

/-- A cell of the results DataFrame: the `combination_name` column holds a
string, the metric columns hold (possibly missing) numbers. -/
inductive Cell where
  | str (s : String)
  | val (v : Score)
deriving Repr, DecidableEq

/-- A row of a DataFrame built from a dict, as a key-ordered association
list. -/
abbrev Row := List (String × Cell)

/-- Reading column `k` of a row; a column missing from the row reads as a
missing value. -/
def rowGet (r : Row) (k : String) : Cell :=
  match r.find? (fun p => p.1 == k) with
  | some p => p.2
  | none => Cell.val none

/-- The column list of `pd.DataFrame(rows)` built from a list of dicts:
keys in order of first appearance. -/
def dfColumns (rows : List Row) : List String :=
  rows.foldl (fun acc r =>
    acc ++ (r.map Prod.fst).filter (fun k => !(acc.contains k))) []

/-- Models `pandas` column `.mean()` with its default `skipna=True`:
the arithmetic mean of the non-missing entries, and a missing value (not
an error) when every entry is missing. -/
def nanmean (xs : List Score) : Score :=
  let present := xs.filterMap id
  if present.isEmpty then none else some (present.sum / (present.length : ℚ))

/-- The `finally` block of the question loop: the per-question record
`{name: scores_dict.get(name, np.nan) for name in metric_names}`, where
`scores_dict` is the initial all-`nan` dict unless a recognized scores
shape replaced it. -/
def question_final_scores (o : EvalOutcome) : List (String × Score) :=
  match o with
  | .ok d => metric_names.map (fun n => (n, dictGet d n))
  | _ => metric_names.map (fun n => (n, none))

/-- Lines 232-233: `pd.DataFrame(combination_scores).mean().to_dict()`.
Every record carries exactly the keys `metric_names` (in that order), so
the DataFrame's columns are `metric_names` when the record list is
nonempty and empty otherwise. -/
def config_avg_scores (records : List (List (String × Score))) :
    List (String × Score) :=
  if records.isEmpty then []
  else metric_names.map (fun n => (n, nanmean (records.map (fun r => dictGet r n))))

/-- The observable external actions of a run, in program order. -/
inductive Event where
  | splitDocuments (chunk_size : Nat)
  | buildVectorIndex
  | buildChain (spec : ChainSpec)
  | invokeChain (ci qi : Nat)
  | retrieveContexts (ci qi : Nat)
  | ragasEvaluate (ci qi : Nat) (max_workers : Nat)
  | sleep (secs : Nat)
  | printAvg (combination_name : String) (scores : List (String × Score))
deriving Repr, DecidableEq

/-- The calls `create_rag_chain` makes, in order: split the documents with
the chain's chunk size, build the FAISS index, assemble the chain. -/
def chain_build_events (spec : ChainSpec) : List Event :=
  [.splitDocuments spec.splitter_chunk_size, .buildVectorIndex, .buildChain spec]

/-- The external calls of one iteration of the question loop: the chain is
invoked; if that returns, contexts are retrieved; if that returns, ragas
scores the output; the `finally` block then sleeps 180 seconds.  There is
no retry. -/
def question_events (o : EvalOutcome) (ci qi mw : Nat) : List Event :=
  (match o with
   | .invokeRaises => [.invokeChain ci qi]
   | .retrieveRaises => [.invokeChain ci qi, .retrieveContexts ci qi]
   | _ => [.invokeChain ci qi, .retrieveContexts ci qi, .ragasEvaluate ci qi mw])
  ++ [.sleep 180]

/-- One iteration of the configuration loop (lines 165-243): build the
chain for the preset, evaluate every benchmark question in order, average
the per-question records and print the averages.  Returns the config's
result row and its events. -/
def eval_config (sc : SharedConfig) (oracle : Nat → Nat → EvalOutcome) (mw : Nat)
    (ci : Nat) (cfg : HyperConfig) : Row × List Event :=
  let chain := create_rag_chain sc cfg.temperature cfg.top_k cfg.chunk_size
  let qIdxs := List.range create_evaluation_dataset.length
  let records := qIdxs.map (fun qi => question_final_scores (oracle ci qi))
  let qEvents := qIdxs.flatMap (fun qi => question_events (oracle ci qi) ci qi mw)
  let avg := config_avg_scores records
  let row : Row := avg.map (fun p => (p.1, Cell.val p.2)) ++ [("combination_name", Cell.str cfg.name)]
  (row, chain_build_events chain ++ qEvents ++ [.printAvg cfg.name avg])

/-- The final results table: its column list and its rows reindexed to it. -/
abbrev FinalTable := List String × List Row

/-- `run_evaluation(original_docs)`: if dependency configuration failed it
returns `None` at once; otherwise it evaluates every preset in order with
`RunConfig(max_workers=1)`, sleeping 300 seconds after each configuration
except the last, and returns the final DataFrame whose columns are
`['combination_name']` followed by the configured metrics that appear in
the collected results.  The second component is the event trace. -/
def run_evaluation (sc : SharedConfig) (depsRaise : Bool)
    (oracle : Nat → Nat → EvalOutcome) : Option FinalTable × List Event :=
  match configure_ragas_dependencies sc depsRaise with
  | (some _, some _) =>
    let ragas_run_config : RunConfig := ⟨1⟩
    let configs := get_manual_hyperparameter_configs
    let num_configs := configs.length
    let per := configs.enum.map (fun p =>
      let (row, evs) := eval_config sc oracle ragas_run_config.max_workers p.1 p.2
      (row, evs ++ if p.1 < num_configs - 1 then [Event.sleep 300] else []))
    let all_results := per.map Prod.fst
    let trace := (per.map Prod.snd).flatten
    let cols := dfColumns all_results
    let final_metric_cols := metric_names.filter (fun n => cols.contains n)
    let final_cols := "combination_name" :: final_metric_cols
    let rows := all_results.map (fun r => final_cols.map (fun c => (c, rowGet r c)))
    (some (final_cols, rows), trace)
  | _ => (none, [])

/-- The table of a successful run. -/
def finalTable (sc : SharedConfig) (oracle : Nat → Nat → EvalOutcome) : FinalTable :=
  ((run_evaluation sc false oracle).1).getD ([], [])

/-- Recognizer for chain-invocation events. -/
def isInvokeChainEv : Event → Bool
  | .invokeChain _ _ => true
  | _ => false

/-- Recognizer for sleep events. -/
def isSleepEv : Event → Bool
  | .sleep _ => true
  | _ => false

/-- Recognizer for chain-construction events. -/
def isBuildChainEv : Event → Bool
  | .buildChain _ => true
  | _ => false

/-- Recognizer for average-printing events. -/
def isPrintAvgEv : Event → Bool
  | .printAvg _ _ => true
  | _ => false

/-- Holds of an event unless it is a scoring call with a worker pool other
than a single worker. -/
def scoringUsesOneWorker : Event → Bool
  | .ragasEvaluate _ _ mw => mw == 1
  | _ => true

/-- A sample instantiation of the imported configuration constants, used to
witness theorems with hypotheses. -/
def sc_test : SharedConfig :=
  ⟨"gemini-1.5-flash", "key", "all-MiniLM-L6-v2", 100, 512⟩

/-- An external world in which every question evaluation succeeds with a
fixed scores dict. -/
def oracle_ok : Nat → Nat → EvalOutcome := fun _ _ =>
  .ok [("faithfulness", some 1), ("answer_relevancy", some (1/2)),
       ("context_precision", some 1), ("context_recall", some 1)]

/-- An external world in which every scoring call raises. -/
def oracle_raise : Nat → Nat → EvalOutcome := fun _ _ => .evaluateRaises

/-! ### Helper lemmas -/

/-- The enumerated preset list, computed. -/
lemma configs_enum :
    get_manual_hyperparameter_configs.enum =
      [(0, ⟨"Creative & Balanced", 1000, 4, 3/10⟩),
       (1, ⟨"Wide Context Sweep", 1200, 6, 1/10⟩),
       (2, ⟨"Balanced Natural", 1000, 3, 2/10⟩),
       (3, ⟨"Dense Precision", 1800, 2, 15/100⟩)] := rfl

/-- The benchmark has four questions. -/
lemma range_dataset : List.range create_evaluation_dataset.length = [0, 1, 2, 3] := rfl

/-- The trace of a run with successfully configured dependencies, one
configuration after the other. -/
lemma run_trace_false (sc : SharedConfig) (oracle : Nat → Nat → EvalOutcome) :
    (run_evaluation sc false oracle).2 =
      get_manual_hyperparameter_configs.enum.flatMap (fun p =>
        (eval_config sc oracle 1 p.1 p.2).2 ++
          if p.1 < get_manual_hyperparameter_configs.length - 1
          then [Event.sleep 300] else []) := rfl

/-- The events of one configuration, unfolded. -/
lemma eval_config_trace (sc : SharedConfig) (oracle : Nat → Nat → EvalOutcome)
    (mw ci : Nat) (cfg : HyperConfig) :
    (eval_config sc oracle mw ci cfg).2 =
      chain_build_events (create_rag_chain sc cfg.temperature cfg.top_k cfg.chunk_size) ++
      (List.range create_evaluation_dataset.length).flatMap
        (fun qi => question_events (oracle ci qi) ci qi mw) ++
      [Event.printAvg cfg.name (config_avg_scores
        ((List.range create_evaluation_dataset.length).map
          (fun qi => question_final_scores (oracle ci qi))))] := rfl

/-- A question iteration attempts exactly one chain invocation, whatever
the outcome. -/
lemma filter_invoke_qe (o : EvalOutcome) (ci qi mw : Nat) :
    (question_events o ci qi mw).filter isInvokeChainEv = [.invokeChain ci qi] := by
  cases o <;> rfl

/-- A question iteration sleeps exactly once, for 180 seconds, whatever
the outcome. -/
lemma filter_sleep_qe (o : EvalOutcome) (ci qi mw : Nat) :
    (question_events o ci qi mw).filter isSleepEv = [.sleep 180] := by
  cases o <;> rfl

/-- A question iteration builds no chain. -/
lemma filter_build_qe (o : EvalOutcome) (ci qi mw : Nat) :
    (question_events o ci qi mw).filter isBuildChainEv = [] := by
  cases o <;> rfl

/-- A question iteration prints no averages. -/
lemma filter_print_qe (o : EvalOutcome) (ci qi mw : Nat) :
    (question_events o ci qi mw).filter isPrintAvgEv = [] := by
  cases o <;> rfl

/-- Every scoring call of a question iteration run with a single worker
uses a single worker. -/
lemma all_one_worker_qe (o : EvalOutcome) (ci qi : Nat) :
    (question_events o ci qi 1).all scoringUsesOneWorker = true := by
  cases o <;> rfl

/-- There are four presets. -/
lemma configs_length : get_manual_hyperparameter_configs.length = 4 := rfl

/-- The index range of the presets, computed. -/
lemma range_four : List.range 4 = [0, 1, 2, 3] := rfl

/-- The chain invocations of a run, in program order: one per question,
questions innermost, both in list order, whatever the outcomes. -/
lemma filter_invoke_trace (sc : SharedConfig) (oracle : Nat → Nat → EvalOutcome) :
    ((run_evaluation sc false oracle).2).filter isInvokeChainEv =
      (List.range get_manual_hyperparameter_configs.length).flatMap (fun ci =>
        (List.range create_evaluation_dataset.length).map
          (fun qi => Event.invokeChain ci qi)) := by
  rw [run_trace_false, configs_enum]
  simp [eval_config_trace, range_dataset, configs_length, range_four,
    List.filter_append, filter_invoke_qe, chain_build_events, isInvokeChainEv]

/-- The sleeps of a run: 180 seconds after each question, 300 seconds
after each configuration except the last, whatever the outcomes. -/
lemma filter_sleep_trace (sc : SharedConfig) (oracle : Nat → Nat → EvalOutcome) :
    ((run_evaluation sc false oracle).2).filter isSleepEv =
      get_manual_hyperparameter_configs.enum.flatMap (fun p =>
        List.replicate create_evaluation_dataset.length (Event.sleep 180) ++
          if p.1 < get_manual_hyperparameter_configs.length - 1
          then [Event.sleep 300] else []) := by
  rw [run_trace_false, configs_enum]
  simp [eval_config_trace, range_dataset, configs_length,
    List.filter_append, filter_sleep_qe, chain_build_events, isSleepEv,
    List.replicate]

/-- The chain constructions of a run: one per preset, built from exactly
that preset's three hyperparameters and the shared constants. -/
lemma filter_build_trace (sc : SharedConfig) (oracle : Nat → Nat → EvalOutcome) :
    ((run_evaluation sc false oracle).2).filter isBuildChainEv =
      get_manual_hyperparameter_configs.enum.map (fun p =>
        Event.buildChain (create_rag_chain sc p.2.temperature p.2.top_k p.2.chunk_size)) := by
  rw [run_trace_false, configs_enum]
  simp [eval_config_trace, range_dataset, configs_length,
    List.filter_append, filter_build_qe, chain_build_events, isBuildChainEv]

/-- The printed averages of a run: one per preset, carrying that preset's
name and its averaged per-question records. -/
lemma filter_print_trace (sc : SharedConfig) (oracle : Nat → Nat → EvalOutcome) :
    ((run_evaluation sc false oracle).2).filter isPrintAvgEv =
      get_manual_hyperparameter_configs.enum.map (fun p =>
        Event.printAvg p.2.name (config_avg_scores
          ((List.range create_evaluation_dataset.length).map
            (fun qi => question_final_scores (oracle p.1 qi))))) := by
  rw [run_trace_false, configs_enum]
  simp [eval_config_trace, range_dataset, configs_length,
    List.filter_append, filter_print_qe, chain_build_events, isPrintAvgEv]

/-- Every scoring call of a run is configured with a single worker. -/
lemma all_one_worker_trace (sc : SharedConfig) (oracle : Nat → Nat → EvalOutcome) :
    ((run_evaluation sc false oracle).2).all scoringUsesOneWorker = true := by
  rw [run_trace_false, configs_enum]
  simp [eval_config_trace, range_dataset, configs_length,
    List.all_append, all_one_worker_qe, chain_build_events, scoringUsesOneWorker]

/-- Pointwise-equal functions give equal flatMaps. -/
lemma flatMap_congr_fun {α β : Type} (l : List α) {f g : α → List β}
    (h : ∀ a, f a = g a) : l.flatMap f = l.flatMap g := by
  induction l with
  | nil => rfl
  | cons a l ih => simp only [List.flatMap_cons, h, ih]

/-- When the invocation and the retrieval both return, a question
iteration invokes the chain, retrieves the contexts, scores, and sleeps,
in that order. -/
lemma question_events_scored (o : EvalOutcome) (h1 : o ≠ EvalOutcome.invokeRaises)
    (h2 : o ≠ EvalOutcome.retrieveRaises) (ci qi mw : Nat) :
    question_events o ci qi mw =
      [.invokeChain ci qi, .retrieveContexts ci qi, .ragasEvaluate ci qi mw, .sleep 180] := by
  cases o <;> first | rfl | exact absurd rfl h1 | exact absurd rfl h2

/-! ### Claims -/

/-- C1: for every configuration and every configured metric, the
per-configuration average in the returned table is the arithmetic mean of
that metric's per-question scores computed while ignoring missing
entries; in particular, when all per-question scores of a metric are
missing, the average is a missing value rather than an error. -/
theorem claim1_average_ignores_missing (sc : SharedConfig)
    (oracle : Nat → Nat → EvalOutcome)
    (ci : Nat) (hci : ci < get_manual_hyperparameter_configs.length)
    (nm : String) (hnm : nm ∈ metric_names) :
    rowGet ((finalTable sc oracle).2.getD ci []) nm =
      Cell.val
        (if (((List.range create_evaluation_dataset.length).map
              (fun qi => dictGet (question_final_scores (oracle ci qi)) nm)).filterMap id).isEmpty
         then none
         else some ((((List.range create_evaluation_dataset.length).map
              (fun qi => dictGet (question_final_scores (oracle ci qi)) nm)).filterMap id).sum /
            ((((List.range create_evaluation_dataset.length).map
              (fun qi => dictGet (question_final_scores (oracle ci qi)) nm)).filterMap id).length : ℚ))) ∧
    ((∀ qi, qi < create_evaluation_dataset.length →
        dictGet (question_final_scores (oracle ci qi)) nm = none) →
      rowGet ((finalTable sc oracle).2.getD ci []) nm = Cell.val none) := by
  have h4 : ci < 4 := by simpa using hci
  have hmain : rowGet ((finalTable sc oracle).2.getD ci []) nm =
      Cell.val
        (if (((List.range create_evaluation_dataset.length).map
              (fun qi => dictGet (question_final_scores (oracle ci qi)) nm)).filterMap id).isEmpty
         then none
         else some ((((List.range create_evaluation_dataset.length).map
              (fun qi => dictGet (question_final_scores (oracle ci qi)) nm)).filterMap id).sum /
            ((((List.range create_evaluation_dataset.length).map
              (fun qi => dictGet (question_final_scores (oracle ci qi)) nm)).filterMap id).length : ℚ))) := by
    interval_cases ci <;> fin_cases hnm <;> rfl
  refine ⟨hmain, fun hall => ?_⟩
  rw [hmain]
  have h0 := hall 0 (by decide)
  have h1 := hall 1 (by decide)
  have h2 := hall 2 (by decide)
  have h3 := hall 3 (by decide)
  simp [range_dataset, h0, h1, h2, h3]

/-- Witness for C1: in a world where every question scores faithfulness
at 1, the first configuration's faithfulness average is 1. -/
theorem claim1_average_ignores_missing_witness :
    rowGet ((finalTable sc_test oracle_ok).2.getD 0 []) "faithfulness" =
      Cell.val (some 1) := by
  have h := (claim1_average_ignores_missing sc_test oracle_ok 0 (by decide)
    "faithfulness" (by decide)).1
  rw [h]
  norm_num [range_dataset, oracle_ok, question_final_scores, dictGet, metric_names,
    List.filterMap]

/-- C2: the final results table's columns are, in order,
`combination_name` followed by the configured metric list, each row being
keyed by exactly those columns in that order (every configured metric
appears in the collected results, so the configured-list filter keeps the
whole list in its order). -/
theorem claim2_column_order (sc : SharedConfig) (oracle : Nat → Nat → EvalOutcome) :
    (finalTable sc oracle).1 = "combination_name" :: metric_names ∧
    (finalTable sc oracle).2.map (fun r => r.map Prod.fst) =
      List.replicate get_manual_hyperparameter_configs.length
        ("combination_name" :: metric_names) :=
  ⟨rfl, rfl⟩

/-- C3: whenever a question's evaluation fails — an exception while
invoking the chain, retrieving contexts or scoring, a result without a
`scores` attribute, or a `scores` attribute of unrecognized shape — the
failure is swallowed and the per-question record maps every configured
metric to a missing value; every per-question record, failed or not, has
exactly one entry per configured metric name in order; and the loop still
attempts every question of every configuration exactly once, in order,
with no retry. -/
theorem claim3_failures_recorded_as_missing (sc : SharedConfig)
    (oracle : Nat → Nat → EvalOutcome)
    (o : EvalOutcome) (hfail : ∀ d, o ≠ EvalOutcome.ok d) :
    question_final_scores o = metric_names.map (fun n => (n, none)) ∧
    (∀ o2 : EvalOutcome, (question_final_scores o2).map Prod.fst = metric_names) ∧
    ((run_evaluation sc false oracle).2).filter isInvokeChainEv =
      (List.range get_manual_hyperparameter_configs.length).flatMap (fun ci =>
        (List.range create_evaluation_dataset.length).map
          (fun qi => Event.invokeChain ci qi)) := by
  refine ⟨?_, ?_, filter_invoke_trace sc oracle⟩
  · cases o <;> first | rfl | exact absurd rfl (hfail _)
  · intro o2
    cases o2 <;> simp [question_final_scores, metric_names]

/-- Witness for C3: a scoring exception leaves the per-question record
all-missing. -/
theorem claim3_failures_recorded_as_missing_witness :
    question_final_scores EvalOutcome.evaluateRaises =
      metric_names.map (fun n => (n, none)) :=
  (claim3_failures_recorded_as_missing sc_test oracle_raise
    EvalOutcome.evaluateRaises (fun _ h => nomatch h)).1

/-- C4: when dependency configuration succeeds, `run_evaluation` returns
(rather than `None`) a table with exactly one row per hyperparameter
preset, whose `combination_name` cells are the presets' names in order,
and the per-configuration averaged scores are printed, one print per
preset carrying its name and averages. -/
theorem claim4_results_table (sc : SharedConfig) (oracle : Nat → Nat → EvalOutcome) :
    (run_evaluation sc false oracle).1 = some (finalTable sc oracle) ∧
    (finalTable sc oracle).2.length = get_manual_hyperparameter_configs.length ∧
    (finalTable sc oracle).2.map (fun r => rowGet r "combination_name") =
      get_manual_hyperparameter_configs.map (fun cfg => Cell.str cfg.name) ∧
    ((run_evaluation sc false oracle).2).filter isPrintAvgEv =
      get_manual_hyperparameter_configs.enum.map (fun p =>
        Event.printAvg p.2.name (config_avg_scores
          ((List.range create_evaluation_dataset.length).map
            (fun qi => question_final_scores (oracle p.1 qi))))) :=
  ⟨rfl, rfl, rfl, filter_print_trace sc oracle⟩

/-- C5: the hyperparameter presets are a fixed list of exactly four named
combinations of chunk size, top_k and temperature, and the benchmark is a
fixed list of exactly four question/ground-truth pairs with question `i`
paired with ground truth `i`. -/
theorem claim5_fixed_presets_and_benchmark :
    get_manual_hyperparameter_configs.length = 4 ∧
    get_manual_hyperparameter_configs.map (fun c => c.name) =
      ["Creative & Balanced", "Wide Context Sweep", "Balanced Natural", "Dense Precision"] ∧
    get_manual_hyperparameter_configs.map (fun c => (c.chunk_size, c.top_k, c.temperature)) =
      [(1000, 4, 3/10), (1200, 6, 1/10), (1000, 3, 2/10), (1800, 2, 15/100)] ∧
    create_evaluation_dataset.length = 4 ∧
    create_evaluation_dataset.map (fun p => p.question) = evaluation_questions ∧
    create_evaluation_dataset.map (fun p => p.ground_truth) = evaluation_ground_truths :=
  ⟨rfl, rfl, rfl, rfl, rfl, rfl⟩

/-- C6: when no per-question call raises before scoring, the run's
external actions are, for each preset in order: split the documents with
the preset's chunk size, build the vector index, build the chain from the
preset's top_k and temperature, then for each benchmark question in order
invoke the chain once, retrieve contexts, score with the evaluation
library and sleep, then print the average of the question scores, with
the inter-configuration sleep after every preset but the last. -/
theorem claim6_pipeline_order (sc : SharedConfig) (oracle : Nat → Nat → EvalOutcome)
    (h : ∀ ci qi, oracle ci qi ≠ EvalOutcome.invokeRaises ∧
      oracle ci qi ≠ EvalOutcome.retrieveRaises) :
    (run_evaluation sc false oracle).2 =
      get_manual_hyperparameter_configs.enum.flatMap (fun p =>
        [Event.splitDocuments p.2.chunk_size, Event.buildVectorIndex,
         Event.buildChain (create_rag_chain sc p.2.temperature p.2.top_k p.2.chunk_size)] ++
        (List.range create_evaluation_dataset.length).flatMap (fun qi =>
          [Event.invokeChain p.1 qi, Event.retrieveContexts p.1 qi,
           Event.ragasEvaluate p.1 qi 1, Event.sleep 180]) ++
        [Event.printAvg p.2.name (config_avg_scores
          ((List.range create_evaluation_dataset.length).map
            (fun qi => question_final_scores (oracle p.1 qi))))] ++
        (if p.1 < get_manual_hyperparameter_configs.length - 1
         then [Event.sleep 300] else [])) := by
  rw [run_trace_false]
  refine flatMap_congr_fun _ (fun p => ?_)
  rw [eval_config_trace]
  have hq : (List.range create_evaluation_dataset.length).flatMap
      (fun qi => question_events (oracle p.1 qi) p.1 qi 1) =
      (List.range create_evaluation_dataset.length).flatMap
      (fun qi => [Event.invokeChain p.1 qi, Event.retrieveContexts p.1 qi,
                  Event.ragasEvaluate p.1 qi 1, Event.sleep 180]) :=
    flatMap_congr_fun _ (fun qi =>
      question_events_scored _ (h p.1 qi).1 (h p.1 qi).2 _ _ _)
  rw [hq]
  rfl

/-- Witness for C6: in an all-success world the trace has the 83 events
the pipeline order prescribes (4 × (3 setup + 4 × 4 per-question + 1
print) + 3 inter-configuration sleeps). -/
theorem claim6_pipeline_order_witness :
    ((run_evaluation sc_test false oracle_ok).2).length = 83 := by
  rw [claim6_pipeline_order sc_test oracle_ok
    (fun _ _ => ⟨(fun hh => nomatch hh), (fun hh => nomatch hh)⟩)]
  rfl

/-- C7: the sleeps of a run are exactly a fixed 180-second sleep after
each evaluated question and a fixed 300-second sleep after each
configuration except the last, independent of the outcomes (no backoff),
and each question is attempted exactly once (no retry). -/
theorem claim7_fixed_sleeps (sc : SharedConfig) (oracle : Nat → Nat → EvalOutcome) :
    ((run_evaluation sc false oracle).2).filter isSleepEv =
      get_manual_hyperparameter_configs.enum.flatMap (fun p =>
        List.replicate create_evaluation_dataset.length (Event.sleep 180) ++
          if p.1 < get_manual_hyperparameter_configs.length - 1
          then [Event.sleep 300] else []) ∧
    ((run_evaluation sc false oracle).2).filter isInvokeChainEv =
      (List.range get_manual_hyperparameter_configs.length).flatMap (fun ci =>
        (List.range create_evaluation_dataset.length).map
          (fun qi => Event.invokeChain ci qi)) :=
  ⟨filter_sleep_trace sc oracle, filter_invoke_trace sc oracle⟩

/-- C8: execution is strictly sequential — the chain invocations of a run
are exactly one per (configuration, question) pair, configurations
outermost, both in list order — and every scoring call is configured with
`max_workers = 1`. -/
theorem claim8_sequential_single_worker (sc : SharedConfig)
    (oracle : Nat → Nat → EvalOutcome) :
    ((run_evaluation sc false oracle).2).filter isInvokeChainEv =
      (List.range get_manual_hyperparameter_configs.length).flatMap (fun ci =>
        (List.range create_evaluation_dataset.length).map
          (fun qi => Event.invokeChain ci qi)) ∧
    ((run_evaluation sc false oracle).2).all scoringUsesOneWorker = true :=
  ⟨filter_invoke_trace sc oracle, all_one_worker_trace sc oracle⟩

/-- C9: when configuring the evaluation dependencies raises,
`configure_ragas_dependencies` catches the exception and returns
`(None, None)`, and `run_evaluation` then returns `None` immediately, with
an empty trace: no configuration is evaluated and no state is touched. -/
theorem claim9_dependency_failure (sc : SharedConfig)
    (oracle : Nat → Nat → EvalOutcome) :
    configure_ragas_dependencies sc true = (none, none) ∧
    run_evaluation sc true oracle = (none, []) :=
  ⟨rfl, rfl⟩

/-- C10: only chunk size, top_k and temperature vary between the chains of
different configurations; chunk overlap, embedding model, prompt template,
generation model and maximum output tokens are the same shared constants
for every chain, and every chain built during a run comes from exactly one
preset's three hyperparameters. -/
theorem claim10_only_hyperparameters_vary (sc : SharedConfig) (t1 t2 : ℚ)
    (k1 k2 c1 c2 : Nat) (oracle : Nat → Nat → EvalOutcome) :
    (create_rag_chain sc t1 k1 c1).splitter_chunk_overlap =
      (create_rag_chain sc t2 k2 c2).splitter_chunk_overlap ∧
    (create_rag_chain sc t1 k1 c1).embedding_model =
      (create_rag_chain sc t2 k2 c2).embedding_model ∧
    (create_rag_chain sc t1 k1 c1).prompt_template =
      (create_rag_chain sc t2 k2 c2).prompt_template ∧
    (create_rag_chain sc t1 k1 c1).llm_model =
      (create_rag_chain sc t2 k2 c2).llm_model ∧
    (create_rag_chain sc t1 k1 c1).llm_max_output_tokens =
      (create_rag_chain sc t2 k2 c2).llm_max_output_tokens ∧
    (create_rag_chain sc t1 k1 c1).splitter_chunk_overlap = sc.CHUNK_OVERLAP ∧
    (create_rag_chain sc t1 k1 c1).embedding_model = sc.EMBEDDING_MODEL ∧
    (create_rag_chain sc t1 k1 c1).llm_model = sc.GEMINI_MODEL ∧
    (create_rag_chain sc t1 k1 c1).llm_max_output_tokens = sc.MAX_OUT_TOKENS ∧
    (create_rag_chain sc t1 k1 c1).prompt_template = rag_prompt_template ∧
    (create_rag_chain sc t1 k1 c1).splitter_chunk_size = c1 ∧
    (create_rag_chain sc t1 k1 c1).retriever_k = k1 ∧
    (create_rag_chain sc t1 k1 c1).llm_temperature = t1 ∧
    ((run_evaluation sc false oracle).2).filter isBuildChainEv =
      get_manual_hyperparameter_configs.enum.map (fun p =>
        Event.buildChain (create_rag_chain sc p.2.temperature p.2.top_k p.2.chunk_size)) :=
  ⟨rfl, rfl, rfl, rfl, rfl, rfl, rfl, rfl, rfl, rfl, rfl, rfl, rfl,
    filter_build_trace sc oracle⟩

end RagasEval
